import Mathlib

/-!
Shallow embedding of the trust-aware risk-assessment core
(`app/decision.py` and `app/explain.py`): data model, margin computation,
lexical signal detection, decision aggregation and explanation generation,
with the spec's testable properties proved against the embedding.
Python floats are modelled as rationals; Python dicts of scores as
association lists (insertion-ordered, keys unique); Python substring
search (`needle in hay`) as an executable scan over character lists.
-/

namespace TrustAware

/-- Default minimum confidence required to consider a prediction low-risk
(`DEFAULT_CONFIDENCE_THRESHOLD` in `decision.py`). -/
def DEFAULT_CONFIDENCE_THRESHOLD : ℚ := 0.7

/-- Minimum margin between top-1 and top-2 probabilities
(`DEFAULT_MARGIN_THRESHOLD` in `decision.py`). -/
def DEFAULT_MARGIN_THRESHOLD : ℚ := 0.2

/-- Risk score at or above which the system defers to human review
(`RISK_REVIEW_THRESHOLD` in `decision.py`). -/
def RISK_REVIEW_THRESHOLD : ℕ := 2

/-- `TextClassificationResult` from `app/model.py`: label, confidence and
the per-label score mapping (modelled as an association list). -/
structure TextClassificationResult where
  label : String
  confidence : ℚ
  scores : List (String × ℚ)
deriving DecidableEq

/-- `DecisionDetails` from `app/decision.py`: structured representation of
the system's decision. -/
structure DecisionDetails where
  decision : String
  threshold : ℚ
  margin : ℚ
  margin_threshold : ℚ
  risk_score : ℕ
  low_confidence : Bool
  low_margin : Bool
  ambiguous_language : Bool
  mixed_sentiment : Bool
  risk_signals : List String
deriving DecidableEq

/-- `_compute_margin` from `decision.py`: gap between the highest and
second-highest scores; the single value for a one-entry mapping; 0 for an
empty mapping.  `sorted(scores.values(), reverse=True)` is modelled as
insertion sort by `≥`. -/
def _compute_margin (scores : List (String × ℚ)) : ℚ :=
  if scores.isEmpty then 0
  else
    match List.insertionSort (fun a b => a ≥ b) (scores.map Prod.snd) with
    | [] => 0
    | [x] => x
    | x :: y :: _ => x - y

/-- `_HEDGING_MARKERS` from `decision.py`. -/
def _HEDGING_MARKERS : List String :=
  ["maybe", "probably", "perhaps", "i think", "it seems",
   "sort of", "kind of", "a bit", "not sure", "unclear"]

/-- `_CONTRAST_MARKERS` from `decision.py`: each marker padded with
surrounding spaces. -/
def _CONTRAST_MARKERS : List String :=
  [" but ", " however ", " although ", " though ", " yet "]

/-- `_normalise_text` from `decision.py`: `text.lower()`. -/
def _normalise_text (text : String) : String :=
  ⟨text.data.map Char.toLower⟩

/-- Whether `needle` is a leading segment of `hay` (helper for modelling
the Python substring operator). -/
def listPrefixOf : List Char → List Char → Bool
  | [], _ => true
  | _ :: _, [] => false
  | a :: as, b :: bs => a == b && listPrefixOf as bs

/-- The Python substring operator `needle in hay` on character lists:
`needle` occurs contiguously somewhere in `hay`. -/
def listContains (needle : List Char) : List Char → Bool
  | [] => listPrefixOf needle []
  | c :: rest => listPrefixOf needle (c :: rest) || listContains needle rest

/-- `_contains_any` from `decision.py`: does the lowercased text contain
any of the markers as a substring? -/
def _contains_any (text : String) (markers : List String) : Bool :=
  let lower := _normalise_text text
  markers.any (fun marker => listContains marker.data lower.data)

/-- `_detect_ambiguity_signals` from `decision.py`: returns the pair
`(ambiguous_language, mixed_sentiment)`. -/
def _detect_ambiguity_signals (text : String) : Bool × Bool :=
  let lower := _normalise_text text
  let has_hedging := _contains_any lower _HEDGING_MARKERS
  let has_contrast := _contains_any lower _CONTRAST_MARKERS
  let has_question := listContains ['?'] lower.data
  let ambiguous_language := has_hedging || has_contrast || has_question
  let mixed_sentiment := has_contrast || has_question
  (ambiguous_language, mixed_sentiment)

/-- `make_decision` from `decision.py`: combine the numeric and lexical
risk signals into a `DecisionDetails` record. -/
def make_decision (text : String) (result : TextClassificationResult)
    (threshold : ℚ) (margin_threshold : ℚ) : DecisionDetails :=
  let margin := _compute_margin result.scores
  let low_confidence : Bool := decide (result.confidence < threshold)
  let low_margin : Bool := decide (margin < margin_threshold)
  let signals := _detect_ambiguity_signals text
  let ambiguous_language := signals.1
  let mixed_sentiment := signals.2
  let risk_signals : List String :=
    (if low_confidence then ["low_confidence"] else []) ++
    (if low_margin then ["low_margin"] else []) ++
    (if ambiguous_language then ["ambiguity"] else []) ++
    (if mixed_sentiment then ["mixed_sentiment"] else [])
  let risk_score := risk_signals.length
  let decision :=
    if RISK_REVIEW_THRESHOLD ≤ risk_score then "needs_human_review" else "accepted"
  ⟨decision, threshold, margin, margin_threshold, risk_score,
   low_confidence, low_margin, ambiguous_language, mixed_sentiment, risk_signals⟩

/-- Python `f"{q:.2f}"` formatting of a (non-negative in practice) rational
to two decimal places, used by `generate_explanation`. -/
def format2 (q : ℚ) : String :=
  let cents : ℤ := round (q * 100)
  let sign := if cents < 0 then "-" else ""
  let n := cents.natAbs
  sign ++ toString (n / 100) ++ "." ++
    (if n % 100 < 10 then "0" else "") ++ toString (n % 100)

/-- Python `" ".join(parts)`: concatenate the parts with single spaces. -/
def joinSpace : List String → String
  | [] => ""
  | [p] => p
  | p :: ps => p ++ " " ++ joinSpace ps

/-- `generate_explanation` from `app/explain.py`: assemble the six-sentence
narrative, one sentence per topic, joined with single spaces. -/
def generate_explanation (text : String) (result : TextClassificationResult)
    (decision : DecisionDetails) : String :=
  let conf := result.confidence
  let margin := decision.margin
  let threshold := decision.threshold
  let risk_score := decision.risk_score
  let part1 :=
    "The system predicted " ++ result.label ++ " with confidence " ++
      format2 conf ++ "."
  let part2 :=
    if decision.low_confidence then
      "Confidence is below the operational threshold of " ++ format2 threshold ++
        ", which increases the risk that the prediction could be wrong."
    else
      "Confidence is above the operational threshold of " ++ format2 threshold ++
        ", but the system does not rely on confidence alone to automate decisions."
  let part3 :=
    if decision.low_margin then
      "The model\x27s top classes are close in score (margin " ++ format2 margin ++
        ", below the stability threshold of " ++ format2 decision.margin_threshold ++
        "), so the prediction is treated as unstable even if confidence is high."
    else
      "The score margin between the top classes is " ++ format2 margin ++
        ", above the stability threshold of " ++ format2 decision.margin_threshold ++
        ", indicating a clear preference for the chosen label."
  let part4 :=
    if decision.ambiguous_language || decision.mixed_sentiment then
      if decision.ambiguous_language && decision.mixed_sentiment then
        "The text uses hedging or contrastive phrasing and expresses mixed views, which we interpret as linguistic ambiguity."
      else if decision.ambiguous_language then
        "The text contains hedging, questions, or contrastive phrasing, which are treated as signs of ambiguity."
      else
        "The text expresses conflicting views, which we treat as a mixed or uncertain sentiment signal."
    else
      "The text does not exhibit strong ambiguity patterns such as hedging or contrastive phrasing."
  let part5 :=
    if decision.risk_signals.isEmpty then
      "No explicit risk signals were triggered for this input, so the model\x27s confidence and score margin are considered reliable in this context."
    else
      "Triggered risk signals: " ++ String.intercalate ", " decision.risk_signals ++
        ". These signals indicate that the model\x27s raw confidence should not be trusted on its own."
  let part6 :=
    if decision.decision = "needs_human_review" then
      "Multiple risk signals combine into a risk score of " ++ toString risk_score ++
        ", which meets or exceeds the review threshold of " ++
        toString RISK_REVIEW_THRESHOLD ++
        ". To avoid overconfident automation, the system defers this case to human review."
    else if risk_score = 0 then
      "Risk signals are low overall, so the system is comfortable automatically accepting this prediction."
    else
      "The cumulative risk score is " ++ toString risk_score ++
        ", below the review threshold of " ++ toString RISK_REVIEW_THRESHOLD ++
        ", so the prediction is accepted while still prioritising safety over blind confidence."
  joinSpace [part1, part2, part3, part4, part5, part6]

/-! ### Shared lemmas about the embedding -/

theorem listPrefixOf_append (n post : List Char) :
    listPrefixOf n (n ++ post) = true := by
  induction n with
  | nil => rfl
  | cons a as ih => simp [listPrefixOf, ih]

theorem listContains_of_listPrefixOf {n h : List Char}
    (hp : listPrefixOf n h = true) : listContains n h = true := by
  cases h with
  | nil => simpa [listContains] using hp
  | cons c rest => simp [listContains, hp]

theorem listContains_self_append (n post : List Char) :
    listContains n (n ++ post) = true :=
  listContains_of_listPrefixOf (listPrefixOf_append n post)

theorem listContains_append_left (pre : List Char) {n h : List Char}
    (hc : listContains n h = true) : listContains n (pre ++ h) = true := by
  induction pre with
  | nil => simpa using hc
  | cons c cs ih => simp [listContains, ih]

theorem listContains_joinSpace {p : String} {parts : List String}
    (hmem : p ∈ parts) :
    listContains p.data (joinSpace parts).data = true := by
  induction parts with
  | nil => cases hmem
  | cons q rest ih =>
    cases hmem with
    | head =>
      cases rest with
      | nil =>
        have h := listPrefixOf_append p.data []
        rw [List.append_nil] at h
        exact listContains_of_listPrefixOf h
      | cons x xs =>
        show listContains p.data ((p ++ " " ++ joinSpace (x :: xs)).data) = true
        rw [String.data_append, String.data_append, List.append_assoc]
        exact listContains_self_append _ _
    | tail _ hmem2 =>
      cases rest with
      | nil => cases hmem2
      | cons x xs =>
        show listContains p.data ((q ++ " " ++ joinSpace (x :: xs)).data) = true
        rw [String.data_append, String.data_append]
        exact listContains_append_left _ (ih hmem2)

theorem make_decision_low_confidence (t : String) (r : TextClassificationResult)
    (th mt : ℚ) :
    (make_decision t r th mt).low_confidence = decide (r.confidence < th) := rfl

theorem make_decision_low_margin (t : String) (r : TextClassificationResult)
    (th mt : ℚ) :
    (make_decision t r th mt).low_margin =
      decide (_compute_margin r.scores < mt) := rfl

theorem make_decision_ambiguous_language (t : String)
    (r : TextClassificationResult) (th mt : ℚ) :
    (make_decision t r th mt).ambiguous_language =
      (_detect_ambiguity_signals t).1 := rfl

theorem make_decision_mixed_sentiment (t : String)
    (r : TextClassificationResult) (th mt : ℚ) :
    (make_decision t r th mt).mixed_sentiment =
      (_detect_ambiguity_signals t).2 := rfl

theorem make_decision_risk_signals (t : String) (r : TextClassificationResult)
    (th mt : ℚ) :
    (make_decision t r th mt).risk_signals =
      (if (make_decision t r th mt).low_confidence then ["low_confidence"] else []) ++
      (if (make_decision t r th mt).low_margin then ["low_margin"] else []) ++
      (if (make_decision t r th mt).ambiguous_language then ["ambiguity"] else []) ++
      (if (make_decision t r th mt).mixed_sentiment then ["mixed_sentiment"] else []) := rfl

theorem make_decision_risk_score (t : String) (r : TextClassificationResult)
    (th mt : ℚ) :
    (make_decision t r th mt).risk_score =
      (make_decision t r th mt).risk_signals.length := rfl

theorem make_decision_decision (t : String) (r : TextClassificationResult)
    (th mt : ℚ) :
    (make_decision t r th mt).decision =
      (if RISK_REVIEW_THRESHOLD ≤ (make_decision t r th mt).risk_score
        then "needs_human_review" else "accepted") := rfl

theorem signal_list_length (b1 b2 b3 b4 : Bool) :
    ((if b1 then ["low_confidence"] else []) ++
     (if b2 then ["low_margin"] else []) ++
     (if b3 then ["ambiguity"] else []) ++
     (if b4 then ["mixed_sentiment"] else [])).length =
      b1.toNat + b2.toNat + b3.toNat + b4.toNat := by
  cases b1 <;> cases b2 <;> cases b3 <;> cases b4 <;> rfl

theorem bool_toNat_mono {b c : Bool} (h : b = true → c = true) :
    b.toNat ≤ c.toNat := by
  cases b <;> cases c <;> simp_all

/-! ### Claims -/

/-- C1: for every input text, classification result and thresholds, the
`DecisionRecord` returned by `make_decision` has
`decision = "needs_human_review"` iff its `risk_score` is at least the fixed
review threshold (`RISK_REVIEW_THRESHOLD = 2`), and `decision = "accepted"`
iff `risk_score < 2`. -/
theorem decision_gate_iff_risk_threshold (t : String)
    (r : TextClassificationResult) (th mt : ℚ) :
    RISK_REVIEW_THRESHOLD = 2 ∧
    ((make_decision t r th mt).decision = "needs_human_review" ↔
      2 ≤ (make_decision t r th mt).risk_score) ∧
    ((make_decision t r th mt).decision = "accepted" ↔
      (make_decision t r th mt).risk_score < 2) := by
  have hd := make_decision_decision t r th mt
  refine ⟨rfl, ?_, ?_⟩ <;> rw [hd] <;> split <;> rename_i h <;>
    simp_all [RISK_REVIEW_THRESHOLD] <;> omega

/-- C2: the record returned by `make_decision` satisfies
`risk_score = risk_signals.length`, and `risk_signals` is exactly the
subsequence of the fixed order `low_confidence, low_margin, ambiguity,
mixed_sentiment` containing a name iff the corresponding flag is true. -/
theorem risk_signals_exact_subsequence (t : String)
    (r : TextClassificationResult) (th mt : ℚ) :
    (make_decision t r th mt).risk_score =
      (make_decision t r th mt).risk_signals.length ∧
    List.Sublist (make_decision t r th mt).risk_signals
      ["low_confidence", "low_margin", "ambiguity", "mixed_sentiment"] ∧
    ("low_confidence" ∈ (make_decision t r th mt).risk_signals ↔
      (make_decision t r th mt).low_confidence = true) ∧
    ("low_margin" ∈ (make_decision t r th mt).risk_signals ↔
      (make_decision t r th mt).low_margin = true) ∧
    ("ambiguity" ∈ (make_decision t r th mt).risk_signals ↔
      (make_decision t r th mt).ambiguous_language = true) ∧
    ("mixed_sentiment" ∈ (make_decision t r th mt).risk_signals ↔
      (make_decision t r th mt).mixed_sentiment = true) := by
  refine ⟨make_decision_risk_score t r th mt, ?_⟩
  rw [make_decision_risk_signals]
  generalize (make_decision t r th mt).low_confidence = b1
  generalize (make_decision t r th mt).low_margin = b2
  generalize (make_decision t r th mt).ambiguous_language = b3
  generalize (make_decision t r th mt).mixed_sentiment = b4
  cases b1 <;> cases b2 <;> cases b3 <;> cases b4 <;> decide

/-- C9: the record returned by `make_decision` has `risk_score` between 0
and 4 inclusive, and its `decision` field is one of the two strings
`"accepted"` and `"needs_human_review"`. -/
theorem risk_score_bounded_decision_enumerated (t : String)
    (r : TextClassificationResult) (th mt : ℚ) :
    (make_decision t r th mt).risk_score ≤ 4 ∧
    ((make_decision t r th mt).decision = "accepted" ∨
      (make_decision t r th mt).decision = "needs_human_review") := by
  constructor
  · rw [make_decision_risk_score, make_decision_risk_signals]
    generalize (make_decision t r th mt).low_confidence = b1
    generalize (make_decision t r th mt).low_margin = b2
    generalize (make_decision t r th mt).ambiguous_language = b3
    generalize (make_decision t r th mt).mixed_sentiment = b4
    cases b1 <;> cases b2 <;> cases b3 <;> cases b4 <;> decide
  · rw [make_decision_decision]
    split
    · exact Or.inr rfl
    · exact Or.inl rfl

/-- C4: for every input, the `mixed_sentiment` flag computed by
`make_decision` implies the `ambiguous_language` flag. -/
theorem mixed_sentiment_implies_ambiguous_language (t : String)
    (r : TextClassificationResult) (th mt : ℚ) :
    (make_decision t r th mt).mixed_sentiment = true →
    (make_decision t r th mt).ambiguous_language = true := by
  rw [make_decision_mixed_sentiment, make_decision_ambiguous_language]
  simp only [_detect_ambiguity_signals, Bool.or_eq_true]
  tauto

/-- Witness for C4 at the concrete text `"ok?"`. -/
theorem mixed_sentiment_implies_ambiguous_language_witness :
    (make_decision "ok?"
        ⟨"POSITIVE", 0.9, [("POSITIVE", 0.9), ("NEGATIVE", 0.1)]⟩
        0.7 0.2).mixed_sentiment = true ∧
    (make_decision "ok?"
        ⟨"POSITIVE", 0.9, [("POSITIVE", 0.9), ("NEGATIVE", 0.1)]⟩
        0.7 0.2).ambiguous_language = true := by
  have hm : (make_decision "ok?"
      ⟨"POSITIVE", 0.9, [("POSITIVE", 0.9), ("NEGATIVE", 0.1)]⟩
      0.7 0.2).mixed_sentiment = true := by
    rw [make_decision_mixed_sentiment]; decide
  exact ⟨hm, mixed_sentiment_implies_ambiguous_language _ _ _ _ hm⟩

/-- C8: the decision is monotone in the triggered signals: if every flag
true in the first evaluation is also true in the second, then a
`"needs_human_review"` outcome for the first forces the same outcome for
the second. -/
theorem decision_monotone_in_signals (t1 t2 : String)
    (r1 r2 : TextClassificationResult) (th1 th2 mt1 mt2 : ℚ) :
    ((make_decision t1 r1 th1 mt1).low_confidence = true →
      (make_decision t2 r2 th2 mt2).low_confidence = true) →
    ((make_decision t1 r1 th1 mt1).low_margin = true →
      (make_decision t2 r2 th2 mt2).low_margin = true) →
    ((make_decision t1 r1 th1 mt1).ambiguous_language = true →
      (make_decision t2 r2 th2 mt2).ambiguous_language = true) →
    ((make_decision t1 r1 th1 mt1).mixed_sentiment = true →
      (make_decision t2 r2 th2 mt2).mixed_sentiment = true) →
    (make_decision t1 r1 th1 mt1).decision = "needs_human_review" →
    (make_decision t2 r2 th2 mt2).decision = "needs_human_review" := by
  intro h1 h2 h3 h4 h5
  have e1 : (make_decision t1 r1 th1 mt1).risk_score =
      (make_decision t1 r1 th1 mt1).low_confidence.toNat +
      (make_decision t1 r1 th1 mt1).low_margin.toNat +
      (make_decision t1 r1 th1 mt1).ambiguous_language.toNat +
      (make_decision t1 r1 th1 mt1).mixed_sentiment.toNat := by
    rw [make_decision_risk_score, make_decision_risk_signals,
      signal_list_length]
  have e2 : (make_decision t2 r2 th2 mt2).risk_score =
      (make_decision t2 r2 th2 mt2).low_confidence.toNat +
      (make_decision t2 r2 th2 mt2).low_margin.toNat +
      (make_decision t2 r2 th2 mt2).ambiguous_language.toNat +
      (make_decision t2 r2 th2 mt2).mixed_sentiment.toNat := by
    rw [make_decision_risk_score, make_decision_risk_signals,
      signal_list_length]
  have m1 := bool_toNat_mono h1
  have m2 := bool_toNat_mono h2
  have m3 := bool_toNat_mono h3
  have m4 := bool_toNat_mono h4
  rw [make_decision_decision] at h5 ⊢
  rw [e1] at h5
  rw [e2]
  have hth : RISK_REVIEW_THRESHOLD = 2 := rfl
  split at h5 <;> rename_i hcond
  · rw [if_pos]
    omega
  · exact absurd h5 (by decide)

/-- Witness for C8: the review outcome for `"ok?"` (two lexical signals)
is preserved for Scenario B (all four signals). -/
theorem decision_monotone_in_signals_witness :
    ((make_decision "ok?"
        ⟨"POSITIVE", 0.9, [("POSITIVE", 0.9), ("NEGATIVE", 0.1)]⟩
        0.7 0.2).decision = "needs_human_review") ∧
    ((make_decision "Maybe it\x27s fine, but I\x27m not sure"
        ⟨"POSITIVE", 0.55, [("POSITIVE", 0.55), ("NEGATIVE", 0.45)]⟩
        0.7 0.2).decision = "needs_human_review") := by
  have hm : (make_decision "ok?"
      ⟨"POSITIVE", 0.9, [("POSITIVE", 0.9), ("NEGATIVE", 0.1)]⟩
      0.7 0.2).mixed_sentiment = true := by
    rw [make_decision_mixed_sentiment]; decide
  have ha : (make_decision "ok?"
      ⟨"POSITIVE", 0.9, [("POSITIVE", 0.9), ("NEGATIVE", 0.1)]⟩
      0.7 0.2).ambiguous_language = true := by
    rw [make_decision_ambiguous_language]; decide
  have ha2 : (make_decision "Maybe it\x27s fine, but I\x27m not sure"
      ⟨"POSITIVE", 0.55, [("POSITIVE", 0.55), ("NEGATIVE", 0.45)]⟩
      0.7 0.2).ambiguous_language = true := by
    rw [make_decision_ambiguous_language]; decide
  have hm2 : (make_decision "Maybe it\x27s fine, but I\x27m not sure"
      ⟨"POSITIVE", 0.55, [("POSITIVE", 0.55), ("NEGATIVE", 0.45)]⟩
      0.7 0.2).mixed_sentiment = true := by
    rw [make_decision_mixed_sentiment]; decide
  have hd1 : (make_decision "ok?"
      ⟨"POSITIVE", 0.9, [("POSITIVE", 0.9), ("NEGATIVE", 0.1)]⟩
      0.7 0.2).decision = "needs_human_review" := by
    rw [make_decision_decision, make_decision_risk_score,
      make_decision_risk_signals, signal_list_length, hm, ha]
    rw [if_pos]
    have h1 : RISK_REVIEW_THRESHOLD = 2 := rfl
    have h2 : (true : Bool).toNat = 1 := rfl
    omega
  refine ⟨hd1, ?_⟩
  exact decision_monotone_in_signals "ok?" _ _ _ _ _ _ _
    (fun _ => by rw [make_decision_low_confidence]; norm_num)
    (fun _ => by
      rw [make_decision_low_margin]
      norm_num [_compute_margin, List.insertionSort, List.orderedInsert])
    (fun _ => ha2) (fun _ => hm2) hd1

/-- C7: both core operations are deterministic pure functions: identical
inputs yield equal `DecisionDetails` records and identical narrative
strings. -/
theorem core_operations_deterministic (t1 t2 : String)
    (r1 r2 : TextClassificationResult) (th1 th2 mt1 mt2 : ℚ)
    (d1 d2 : DecisionDetails) :
    t1 = t2 → r1 = r2 → th1 = th2 → mt1 = mt2 → d1 = d2 →
    make_decision t1 r1 th1 mt1 = make_decision t2 r2 th2 mt2 ∧
    generate_explanation t1 r1 d1 = generate_explanation t2 r2 d2 := by
  rintro rfl rfl rfl rfl rfl
  exact ⟨rfl, rfl⟩

/-- Witness for C7 at a concrete input. -/
theorem core_operations_deterministic_witness :
    make_decision "ok?" ⟨"POSITIVE", 0.9, [("POSITIVE", 0.9), ("NEGATIVE", 0.1)]⟩
        0.7 0.2 =
      make_decision "ok?" ⟨"POSITIVE", 0.9, [("POSITIVE", 0.9), ("NEGATIVE", 0.1)]⟩
        0.7 0.2 ∧
    generate_explanation "ok?"
        ⟨"POSITIVE", 0.9, [("POSITIVE", 0.9), ("NEGATIVE", 0.1)]⟩
        ⟨"accepted", 0.7, 0.8, 0.2, 0, false, false, false, false, []⟩ =
      generate_explanation "ok?"
        ⟨"POSITIVE", 0.9, [("POSITIVE", 0.9), ("NEGATIVE", 0.1)]⟩
        ⟨"accepted", 0.7, 0.8, 0.2, 0, false, false, false, false, []⟩ :=
  core_operations_deterministic _ _ _ _ _ _ _ _ _ _ rfl rfl rfl rfl rfl

/-- C5: Scenario B — for the text `"Maybe it's fine, but I'm not sure"`
with confidence 0.55, scores `{POSITIVE: 0.55, NEGATIVE: 0.45}` and the
default thresholds 0.7 and 0.2, `make_decision` triggers all four signals,
yielding risk score 4 and `"needs_human_review"` (with margin 0.10). -/
theorem scenario_b_all_signals_review :
    make_decision "Maybe it\x27s fine, but I\x27m not sure"
        ⟨"POSITIVE", 0.55, [("POSITIVE", 0.55), ("NEGATIVE", 0.45)]⟩
        0.7 0.2 =
      ⟨"needs_human_review", 0.7, 0.1, 0.2, 4, true, true, true, true,
        ["low_confidence", "low_margin", "ambiguity", "mixed_sentiment"]⟩ := by
  have hmarg : _compute_margin [("POSITIVE", (0.55 : ℚ)), ("NEGATIVE", 0.45)] = 0.1 := by
    norm_num [_compute_margin, List.insertionSort, List.orderedInsert]
  have hdet : _detect_ambiguity_signals "Maybe it\x27s fine, but I\x27m not sure" =
      (true, true) := by decide
  simp only [make_decision, hmarg, hdet]
  norm_num
  intro h
  simp [RISK_REVIEW_THRESHOLD] at h

/-- C6: for every `DecisionDetails`, the narrative returned by
`generate_explanation` contains, as a contiguous substring, the sentence
listing the comma-joined signal names (in their stored order) together
with the statement that raw confidence should not be trusted on its own
when `risk_signals` is non-empty, and the sentence stating that no risk
signals were triggered and confidence and margin are considered reliable
when `risk_signals` is empty. -/
theorem explanation_reports_risk_signals (t : String)
    (r : TextClassificationResult) (d : DecisionDetails) :
    listContains
      (if d.risk_signals.isEmpty then
        ("No explicit risk signals were triggered for this input, so the model\x27s confidence and score margin are considered reliable in this context." : String)
      else
        "Triggered risk signals: " ++ String.intercalate ", " d.risk_signals ++
          ". These signals indicate that the model\x27s raw confidence should not be trusted on its own.").data
      (generate_explanation t r d).data = true := by
  refine listContains_joinSpace ?_
  exact List.mem_cons_of_mem _ (List.mem_cons_of_mem _ (List.mem_cons_of_mem _
    (List.mem_cons_of_mem _ (List.mem_cons_self _ _))))

/-- C3: the computed margin is 0 on the empty score mapping, the single
value on a one-entry mapping, and, for mappings with at least two entries,
the maximum value minus the second-highest value (the maximum of the
multiset after removing one occurrence of the maximum), which is
non-negative. -/
theorem compute_margin_spec :
    _compute_margin [] = 0 ∧
    (∀ (k : String) (v : ℚ), _compute_margin [(k, v)] = v) ∧
    (∀ scores : List (String × ℚ), 2 ≤ scores.length →
      ∃ m s : ℚ,
        (scores.map Prod.snd).maximum = (m : WithBot ℚ) ∧
        ((scores.map Prod.snd).erase m).maximum = (s : WithBot ℚ) ∧
        _compute_margin scores = m - s ∧
        0 ≤ _compute_margin scores) := by
  refine ⟨rfl, fun k v => rfl, fun scores h => ?_⟩
  have hperm : List.Perm
      (List.insertionSort (fun a b => a ≥ b) (scores.map Prod.snd))
      (scores.map Prod.snd) := List.perm_insertionSort _ _
  have hsort : List.Sorted (fun a b => a ≥ b)
      (List.insertionSort (fun a b => a ≥ b) (scores.map Prod.snd)) :=
    List.sorted_insertionSort _ _
  have hvlen : 2 ≤ (scores.map Prod.snd).length := by simpa using h
  obtain ⟨x, y, rest, hxy⟩ : ∃ x y rest,
      List.insertionSort (fun a b => a ≥ b) (scores.map Prod.snd) =
        x :: y :: rest := by
    have hlen2 : 2 ≤
        (List.insertionSort (fun a b => a ≥ b) (scores.map Prod.snd)).length := by
      rw [hperm.length_eq]; exact hvlen
    rcases hls : List.insertionSort (fun a b => a ≥ b) (scores.map Prod.snd) with
      _ | ⟨a, _ | ⟨b, l⟩⟩
    · rw [hls] at hlen2; simp at hlen2
    · rw [hls] at hlen2; simp at hlen2
    · exact ⟨a, b, l, rfl⟩
  rw [hxy] at hperm hsort
  have hxmax : (scores.map Prod.snd).maximum = (x : WithBot ℚ) := by
    rw [List.maximum_eq_coe_iff]
    constructor
    · exact hperm.mem_iff.mp (List.mem_cons_self x _)
    · intro a ha
      have ha2 : a ∈ x :: y :: rest := hperm.mem_iff.mpr ha
      rcases List.mem_cons.mp ha2 with rfl | ha3
      · exact le_refl a
      · exact List.rel_of_sorted_cons hsort a ha3
  have herase : List.Perm ((scores.map Prod.snd).erase x) (y :: rest) := by
    have hp := (hperm.symm.erase x)
    rwa [List.erase_cons_head] at hp
  have hsort2 : List.Sorted (fun a b => a ≥ b) (y :: rest) := hsort.of_cons
  have hsmax : ((scores.map Prod.snd).erase x).maximum = (y : WithBot ℚ) := by
    rw [List.maximum_eq_coe_iff]
    constructor
    · exact herase.mem_iff.mpr (List.mem_cons_self y _)
    · intro a ha
      have ha2 : a ∈ y :: rest := herase.mem_iff.mp ha
      rcases List.mem_cons.mp ha2 with rfl | ha3
      · exact le_refl a
      · exact List.rel_of_sorted_cons hsort2 a ha3
  have hempty : scores.isEmpty = false := by
    cases scores with
    | nil => simp at h
    | cons a l => rfl
  have hmargin : _compute_margin scores = x - y := by
    simp only [_compute_margin, hempty, Bool.false_eq_true, if_false, hxy]
  have hge : x ≥ y := List.rel_of_sorted_cons hsort y (List.mem_cons_self y _)
  exact ⟨x, y, hxmax, hsmax, hmargin, by rw [hmargin]; exact sub_nonneg.mpr hge⟩

/-- Witness for C3 on a concrete two-entry score mapping. -/
theorem compute_margin_spec_witness :
    2 ≤ ([("POSITIVE", (0.9 : ℚ)), ("NEGATIVE", 0.1)] : List (String × ℚ)).length ∧
    ∃ m s : ℚ,
      (([("POSITIVE", (0.9 : ℚ)), ("NEGATIVE", 0.1)] : List (String × ℚ)).map
          Prod.snd).maximum = (m : WithBot ℚ) ∧
      ((([("POSITIVE", (0.9 : ℚ)), ("NEGATIVE", 0.1)] : List (String × ℚ)).map
          Prod.snd).erase m).maximum = (s : WithBot ℚ) ∧
      _compute_margin [("POSITIVE", (0.9 : ℚ)), ("NEGATIVE", 0.1)] = m - s ∧
      0 ≤ _compute_margin [("POSITIVE", (0.9 : ℚ)), ("NEGATIVE", 0.1)] :=
  ⟨by simp, compute_margin_spec.2.2 _ (by simp)⟩

/-- C10: contrast detection requires a space on both sides of the marker
word: the contrast check succeeds iff one of the bare words `but, however,
although, though, yet` occurs in the lowercased text surrounded by spaces
on both sides; the ambiguity and mixed-sentiment flags decompose so that
without such an occurrence only a hedging marker or a question mark can
trigger them; and texts whose contrast word sits at the start or end of
the string or against punctuation, such as `"But I liked it"` and
`"good, but."`, trigger neither flag. -/
theorem contrast_detection_requires_padding :
    (∀ t : String,
      (_contains_any t _CONTRAST_MARKERS = true ↔
        ∃ w ∈ (["but", "however", "although", "though", "yet"] : List String),
          listContains (' ' :: (w.data ++ [' '])) (_normalise_text t).data = true) ∧
      (_detect_ambiguity_signals t).2 =
        (_contains_any (_normalise_text t) _CONTRAST_MARKERS ||
          listContains ['?'] (_normalise_text t).data) ∧
      (_detect_ambiguity_signals t).1 =
        (_contains_any (_normalise_text t) _HEDGING_MARKERS ||
          _contains_any (_normalise_text t) _CONTRAST_MARKERS ||
          listContains ['?'] (_normalise_text t).data)) ∧
    _contains_any "But I liked it" _CONTRAST_MARKERS = false ∧
    _contains_any "good, but." _CONTRAST_MARKERS = false ∧
    _detect_ambiguity_signals "But I liked it" = (false, false) ∧
    _detect_ambiguity_signals "good, but." = (false, false) := by
  refine ⟨fun t => ⟨?_, rfl, rfl⟩, by decide, by decide, by decide, by decide⟩
  show (_CONTRAST_MARKERS.any
      (fun marker => listContains marker.data (_normalise_text t).data)) = true ↔ _
  rw [List.any_eq_true]
  constructor
  · rintro ⟨m, hm, hc⟩
    fin_cases hm
    · exact ⟨"but", by decide, hc⟩
    · exact ⟨"however", by decide, hc⟩
    · exact ⟨"although", by decide, hc⟩
    · exact ⟨"though", by decide, hc⟩
    · exact ⟨"yet", by decide, hc⟩
  · rintro ⟨w, hw, hc⟩
    fin_cases hw
    · exact ⟨" but ", by decide, hc⟩
    · exact ⟨" however ", by decide, hc⟩
    · exact ⟨" although ", by decide, hc⟩
    · exact ⟨" though ", by decide, hc⟩
    · exact ⟨" yet ", by decide, hc⟩

end TrustAware
